import Mathlib

/-!
Shallow embedding of the genor-agents classification cascade and fan-out
executor, with theorems checking the natural-language specification
against the code.

Source files embedded:
- src/genor_agents/classification/regex/regex_binary_classifier_agent.py
- src/genor_agents/classification/regex/regex_multilabel_classifier_agent.py
- src/genor_agents/classification/regex/regex_multiclass_classifier_agent.py
- src/genor_agents/agent.py

The Python standard-library regex engine is external to the repository, so
it is abstracted as an oracle (ReEngine below) recording, for a fixed input
text, the span list produced by re.finditer and the boolean outcome of
re.search on every slice of the text.  Both the embedding of the code and
the reference algorithm written from the specification consume the same
oracle, so the theorems compare exactly the scanning, windowing and policy
logic that the repository itself implements.
-/

/-- Errors of the error taxonomy in the specification.  In the Python code
both are raised as ValueError with distinct messages; the distinct
constructors model the distinct messages. -/
inductive AgentError where
  | invalidPatternType
  | invalidInputType
deriving DecidableEq, Repr

/-- Value given to the regex-pattern arguments of
RegexBinaryClassifierAgent constructor.  The Python code distinguishes
str, list of str, and everything else; int and dict stand for the
"everything else" branch the claims mention. -/
inductive PyPatterns where
  | str (s : String)
  | list (l : List String)
  | int (n : Int)
  | dict
deriving DecidableEq, Repr

/-- Truth value of isinstance(x, str) or isinstance(x, list) for a
PyPatterns value. -/
def PyPatterns.isStrOrList : PyPatterns → Bool
  | .str _ => true
  | .list _ => true
  | .int _ => false
  | .dict => false

/-- Embedding of RegexBinaryClassifierAgent._process_regex_patterns:
a string is returned unchanged, a list is joined with the pipe character,
anything else raises ValueError (InvalidPatternType in the spec). -/
def process_regex_patterns : PyPatterns → Except AgentError String
  | .str s => .ok s
  | .list l => .ok (String.intercalate "|" l)
  | .int _ => .error .invalidPatternType
  | .dict => .error .invalidPatternType

/-- The relevant_match argument: the literal values any, first, last. -/
inductive RelevantMatch where
  | any
  | first
  | last
deriving DecidableEq, Repr

/-- Embedding of the constructed RegexBinaryClassifierAgent object: its
four attributes, set by the constructor and never mutated. -/
structure RegexBinaryClassifierAgent where
  regex_pattern : String
  unwanted_regex_patterns : String
  context_range : Option Int
  relevant_match : RelevantMatch
deriving DecidableEq, Repr

/-- Embedding of RegexBinaryClassifierAgent.__init__: both pattern
arguments go through process_regex_patterns; the first failure is
raised. -/
def RegexBinaryClassifierAgent.init (regex_patterns unwanted_regex_patterns : PyPatterns)
    (context_range : Option Int) (relevant_match : RelevantMatch) :
    Except AgentError RegexBinaryClassifierAgent :=
  match process_regex_patterns regex_patterns with
  | .error e => .error e
  | .ok p =>
    match process_regex_patterns unwanted_regex_patterns with
    | .error e => .error e
    | .ok u => .ok ⟨p, u, context_range, relevant_match⟩

/-- Oracle abstracting the Python re module applied to one fixed text:
textLen is len(data); finditer p is the list of match spans of
re.finditer(p, data) in left-to-right, non-overlapping order; search p lo
hi is true iff re.search(p, data[lo:hi]) finds a match. -/
structure ReEngine where
  textLen : Nat
  finditer : String → List (Nat × Nat)
  search : String → Int → Int → Bool

/-- Embedding of the context_span computation in
RegexBinaryClassifierAgent.__call__: the whole text when context_range is
None, otherwise (max(0, start - r), min(len(data), end + r)) computed in
Python int arithmetic. -/
def RegexBinaryClassifierAgent.contextSpan (textLen : Nat) (context_range : Option Int)
    (s e : Nat) : Int × Int :=
  match context_range with
  | none => (0, (textLen : Int))
  | some r => (max 0 ((s : Int) - r), min (textLen : Int) ((e : Int) + r))

/-- Outcome of one occurrence: true unless an exclusion pattern is
configured (the joined string is nonempty, the Python truthiness test) and
re.search finds it inside the context window. -/
def RegexBinaryClassifierAgent.qualifiedAt (a : RegexBinaryClassifierAgent) (eng : ReEngine)
    (s e : Nat) : Bool :=
  let cs := RegexBinaryClassifierAgent.contextSpan eng.textLen a.context_range s e
  !((a.unwanted_regex_patterns != "") && eng.search a.unwanted_regex_patterns cs.1 cs.2)

/-- Embedding of the for-loop of RegexBinaryClassifierAgent.__call__ over
the remaining matches, carrying curr_res; the initial curr_res is false
and the wildcard second argument mirrors the unconditional
reassignment curr_res = True at the top of each iteration. -/
def RegexBinaryClassifierAgent.callLoop (a : RegexBinaryClassifierAgent) (eng : ReEngine) :
    List (Nat × Nat) → Bool → Bool
  | [], curr_res => curr_res
  | (s, e) :: rest, _ =>
    let curr_res := true
    let cs := RegexBinaryClassifierAgent.contextSpan eng.textLen a.context_range s e
    let curr_res := if (a.unwanted_regex_patterns != "") && eng.search a.unwanted_regex_patterns cs.1 cs.2 then false else curr_res
    match a.relevant_match with
    | .any => if curr_res then true else RegexBinaryClassifierAgent.callLoop a eng rest curr_res
    | .first => curr_res
    | .last => RegexBinaryClassifierAgent.callLoop a eng rest curr_res

/-- Embedding of RegexBinaryClassifierAgent.__call__. -/
def RegexBinaryClassifierAgent.call (a : RegexBinaryClassifierAgent) (eng : ReEngine) : Bool :=
  RegexBinaryClassifierAgent.callLoop a eng (eng.finditer a.regex_pattern) false

/-- Reference algorithm, written from the words of the specification: map
every occurrence to its qualified/disqualified outcome, then reduce by the
match policy (any: some outcome true; first: outcome of the first
occurrence, false if none; last: outcome of the last occurrence, false if
none). -/
def RegexBinaryClassifierAgent.specEvaluate (a : RegexBinaryClassifierAgent) (eng : ReEngine) : Bool :=
  let outcomes := (eng.finditer a.regex_pattern).map fun se => a.qualifiedAt eng se.1 se.2
  match a.relevant_match with
  | .any => outcomes.any id
  | .first => outcomes.headD false
  | .last => outcomes.getLastD false

lemma RegexBinaryClassifierAgent.callLoop_any (a : RegexBinaryClassifierAgent) (eng : ReEngine)
    (h : a.relevant_match = .any) :
    ∀ l : List (Nat × Nat),
      a.callLoop eng l false = (l.map fun se => a.qualifiedAt eng se.1 se.2).any id := by
  intro l
  induction l with
  | nil => simp [RegexBinaryClassifierAgent.callLoop]
  | cons se rest ih =>
    obtain ⟨s, e⟩ := se
    simp only [RegexBinaryClassifierAgent.callLoop, h, List.map_cons, List.any_cons, id]
    cases hq : (a.unwanted_regex_patterns != "") &&
        eng.search a.unwanted_regex_patterns
          (RegexBinaryClassifierAgent.contextSpan eng.textLen a.context_range s e).1
          (RegexBinaryClassifierAgent.contextSpan eng.textLen a.context_range s e).2 <;>
      simp [RegexBinaryClassifierAgent.qualifiedAt, hq, ih]

lemma RegexBinaryClassifierAgent.callLoop_first (a : RegexBinaryClassifierAgent) (eng : ReEngine)
    (h : a.relevant_match = .first) :
    ∀ (l : List (Nat × Nat)) (b : Bool),
      a.callLoop eng l b = ((l.map fun se => a.qualifiedAt eng se.1 se.2).headD b) := by
  intro l b
  cases l with
  | nil => simp [RegexBinaryClassifierAgent.callLoop]
  | cons se rest =>
    obtain ⟨s, e⟩ := se
    simp only [RegexBinaryClassifierAgent.callLoop, h, List.map_cons, List.headD_cons]
    cases hq : (a.unwanted_regex_patterns != "") &&
        eng.search a.unwanted_regex_patterns
          (RegexBinaryClassifierAgent.contextSpan eng.textLen a.context_range s e).1
          (RegexBinaryClassifierAgent.contextSpan eng.textLen a.context_range s e).2 <;>
      simp [RegexBinaryClassifierAgent.qualifiedAt, hq]

lemma RegexBinaryClassifierAgent.callLoop_last (a : RegexBinaryClassifierAgent) (eng : ReEngine)
    (h : a.relevant_match = .last) :
    ∀ (l : List (Nat × Nat)) (b : Bool),
      a.callLoop eng l b = ((l.map fun se => a.qualifiedAt eng se.1 se.2).getLastD b) := by
  intro l
  induction l with
  | nil => intro b; simp [RegexBinaryClassifierAgent.callLoop]
  | cons se rest ih =>
    intro b
    obtain ⟨s, e⟩ := se
    simp only [RegexBinaryClassifierAgent.callLoop, h, List.map_cons, List.getLastD_cons]
    cases hq : (a.unwanted_regex_patterns != "") &&
        eng.search a.unwanted_regex_patterns
          (RegexBinaryClassifierAgent.contextSpan eng.textLen a.context_range s e).1
          (RegexBinaryClassifierAgent.contextSpan eng.textLen a.context_range s e).2 <;>
      simp [RegexBinaryClassifierAgent.qualifiedAt, hq, ih]

/-- Claim C2: for every configuration and every behavior of the regex
engine on the text, RegexBinaryClassifierAgent.__call__ equals the
reference algorithm of the specification: scan the inclusion occurrences
left to right, qualify each occurrence by the absence of an exclusion
match in its context window, and reduce by the match policy, with zero
occurrences yielding false under every policy. -/
theorem binary_call_matches_reference (a : RegexBinaryClassifierAgent) (eng : ReEngine) :
    a.call eng = a.specEvaluate eng := by
  rcases h : a.relevant_match with _ | _ | _
  · simp only [RegexBinaryClassifierAgent.call, RegexBinaryClassifierAgent.specEvaluate, h,
      RegexBinaryClassifierAgent.callLoop_any a eng h]
  · simp only [RegexBinaryClassifierAgent.call, RegexBinaryClassifierAgent.specEvaluate, h,
      RegexBinaryClassifierAgent.callLoop_first a eng h]
  · simp only [RegexBinaryClassifierAgent.call, RegexBinaryClassifierAgent.specEvaluate, h,
      RegexBinaryClassifierAgent.callLoop_last a eng h]

/-- Claim C3: for a configured radius r, the context window is exactly the
character range from max(0, start - r) to min(len(text), end + r), clipped
to the text bounds, stated as a membership characterization of the
half-open range; with an unbounded radius (None) the window is the whole
text. -/
theorem context_window_spec (textLen s e : Nat) (r i : Int) :
    RegexBinaryClassifierAgent.contextSpan textLen none s e = (0, (textLen : Int))
    ∧ ((RegexBinaryClassifierAgent.contextSpan textLen (some r) s e).1 ≤ i
         ∧ i < (RegexBinaryClassifierAgent.contextSpan textLen (some r) s e).2
        ↔ 0 ≤ i ∧ i < (textLen : Int) ∧ (s : Int) - r ≤ i ∧ i < (e : Int) + r) := by
  refine ⟨rfl, ?_⟩
  simp only [RegexBinaryClassifierAgent.contextSpan]
  omega

/-- Concrete instance of context_window_spec: with text length 10, match
span [3, 5) and radius 2, position 4 lies in the context window. -/
theorem context_window_spec_witness :
    (RegexBinaryClassifierAgent.contextSpan 10 (some 2) 3 5).1 ≤ (4 : Int)
    ∧ (4 : Int) < (RegexBinaryClassifierAgent.contextSpan 10 (some 2) 3 5).2 :=
  (context_window_spec 10 3 5 2 4).2.mpr (by decide)

/-- Claim C6: construction fails with InvalidPatternType when either the
inclusion-pattern or the exclusion-pattern argument is neither a string
nor a list of strings, and succeeds whenever both are. -/
theorem binary_init_pattern_validation (p q : PyPatterns) (cr : Option Int)
    (rm : RelevantMatch) :
    (p.isStrOrList = false →
      RegexBinaryClassifierAgent.init p q cr rm = .error .invalidPatternType)
    ∧ (q.isStrOrList = false →
      RegexBinaryClassifierAgent.init p q cr rm = .error .invalidPatternType)
    ∧ (p.isStrOrList = true → q.isStrOrList = true →
      ∃ a, RegexBinaryClassifierAgent.init p q cr rm = .ok a) := by
  rcases p with s | l | n | _ <;> rcases q with s2 | l2 | n2 | _ <;>
    simp [RegexBinaryClassifierAgent.init, process_regex_patterns, PyPatterns.isStrOrList]

/-- Concrete instance of binary_init_pattern_validation: an integer
inclusion-pattern argument is rejected with InvalidPatternType. -/
theorem binary_init_pattern_validation_witness :
    RegexBinaryClassifierAgent.init (.int 7) (.str "x") none .any
      = .error .invalidPatternType :=
  (binary_init_pattern_validation (.int 7) (.str "x") none .any).1 rfl

/-- Counterexample to claim C9: constructing the binary classifier with
the empty list as the inclusion patterns is not a construction error; it
succeeds and stores the empty pattern string. -/
theorem empty_list_construction_succeeds :
    RegexBinaryClassifierAgent.init (.list []) (.list []) none .any
      = .ok ⟨"", "", none, .any⟩ := rfl

/-- Claim C9 (amended): a pattern set is constructed from a single pattern
or a sequence of patterns of any length, the empty sequence included: a
list of patterns is joined with the pipe character, the empty list giving
the empty pattern, and construction succeeds. -/
theorem pattern_list_construction_spec (l : List String) (cr : Option Int)
    (rm : RelevantMatch) :
    RegexBinaryClassifierAgent.init (.list l) (.list []) cr rm
      = .ok ⟨String.intercalate "|" l, "", cr, rm⟩
    ∧ RegexBinaryClassifierAgent.init (.list []) (.list []) cr rm
      = .ok ⟨"", "", cr, rm⟩ := ⟨rfl, rfl⟩

lemma RegexBinaryClassifierAgent.callLoop_no_unwanted (a : RegexBinaryClassifierAgent)
    (eng : ReEngine) (h : a.unwanted_regex_patterns = "") :
    ∀ (l : List (Nat × Nat)) (b : Bool), l ≠ [] → a.callLoop eng l b = true := by
  intro l
  induction l with
  | nil => intro b hne; exact absurd rfl hne
  | cons se rest ih =>
    intro b _
    obtain ⟨s, e⟩ := se
    rcases hrm : a.relevant_match with _ | _ | _ <;>
      · simp only [RegexBinaryClassifierAgent.callLoop, h, hrm]
        cases rest with
        | nil => simp [RegexBinaryClassifierAgent.callLoop]
        | cons se2 rest2 => simp [ih _ (by simp)]

/-- Claim C10: construction with the empty inclusion list succeeds, and
because the joined pattern is the empty regular expression, which the
engine matches at every position of the text, the resulting matcher with
no exclusion patterns returns true for every text (the empty text
included) under every match policy. -/
theorem empty_pattern_matches_all (eng : ReEngine) (cr : Option Int) (rm : RelevantMatch)
    (hfind : eng.finditer "" = (List.range (eng.textLen + 1)).map fun i => (i, i)) :
    RegexBinaryClassifierAgent.init (.list []) (.list []) cr rm = .ok ⟨"", "", cr, rm⟩
    ∧ RegexBinaryClassifierAgent.call ⟨"", "", cr, rm⟩ eng = true := by
  refine ⟨rfl, ?_⟩
  unfold RegexBinaryClassifierAgent.call
  apply RegexBinaryClassifierAgent.callLoop_no_unwanted _ _ rfl
  simp [hfind, List.range_succ]

/-- Engine of a zero-length text on which the empty pattern matches once,
at position 0, as re.finditer does on the empty string. -/
def emptyTextEngine : ReEngine where
  textLen := 0
  finditer := fun _ => [(0, 0)]
  search := fun _ _ _ => false

/-- Concrete instance of empty_pattern_matches_all: on the empty text the
matcher built from the empty inclusion list returns true. -/
theorem empty_pattern_matches_all_witness :
    RegexBinaryClassifierAgent.init (.list []) (.list []) none .any
      = .ok ⟨"", "", none, .any⟩
    ∧ RegexBinaryClassifierAgent.call ⟨"", "", none, .any⟩ emptyTextEngine = true :=
  empty_pattern_matches_all emptyTextEngine none .any (by decide)

/-- Embedding of RegexMultiLabelClassifierAgent.__call__: iterate the
label-to-classifier mapping in insertion order (the order of the
association list, as a Python dict preserves insertion order) and append
each label whose binary classifier returns true. -/
def RegexMultiLabelClassifierAgent.call
    (regex_binary_classifier_per_label : List (String × RegexBinaryClassifierAgent))
    (eng : ReEngine) : List String :=
  match regex_binary_classifier_per_label with
  | [] => []
  | (label, c) :: rest =>
    if c.call eng then label :: RegexMultiLabelClassifierAgent.call rest eng
    else RegexMultiLabelClassifierAgent.call rest eng

lemma RegexMultiLabelClassifierAgent.mem_call
    (cfgs : List (String × RegexBinaryClassifierAgent)) (eng : ReEngine) (l : String) :
    l ∈ RegexMultiLabelClassifierAgent.call cfgs eng
      ↔ ∃ c, (l, c) ∈ cfgs ∧ c.call eng = true := by
  induction cfgs with
  | nil => simp [RegexMultiLabelClassifierAgent.call]
  | cons p rest ih =>
    obtain ⟨label, c⟩ := p
    by_cases hc : c.call eng = true
    · simp only [RegexMultiLabelClassifierAgent.call, if_pos hc, List.mem_cons, ih,
        Prod.mk.injEq]
      constructor
      · rintro (rfl | ⟨c2, hmem, hcall⟩)
        · exact ⟨c, Or.inl ⟨rfl, rfl⟩, hc⟩
        · exact ⟨c2, Or.inr hmem, hcall⟩
      · rintro ⟨c2, ⟨rfl, rfl⟩ | hmem, hcall⟩
        · exact Or.inl rfl
        · exact Or.inr ⟨c2, hmem, hcall⟩
    · simp only [RegexMultiLabelClassifierAgent.call, if_neg hc, ih, List.mem_cons,
        Prod.mk.injEq]
      constructor
      · rintro ⟨c2, hmem, hcall⟩
        exact ⟨c2, Or.inr hmem, hcall⟩
      · rintro ⟨c2, ⟨rfl, rfl⟩ | hmem, hcall⟩
        · exact absurd hcall hc
        · exact ⟨c2, hmem, hcall⟩

lemma RegexMultiLabelClassifierAgent.call_sublist
    (cfgs : List (String × RegexBinaryClassifierAgent)) (eng : ReEngine) :
    List.Sublist (RegexMultiLabelClassifierAgent.call cfgs eng) (cfgs.map Prod.fst) := by
  induction cfgs with
  | nil => simp [RegexMultiLabelClassifierAgent.call]
  | cons p rest ih =>
    obtain ⟨label, c⟩ := p
    by_cases hc : c.call eng = true
    · simpa only [RegexMultiLabelClassifierAgent.call, if_pos hc, List.map_cons] using ih.cons₂ label
    · simpa only [RegexMultiLabelClassifierAgent.call, if_neg hc, List.map_cons] using ih.cons label

lemma pair_mem_nodup_keys {cfgs : List (String × RegexBinaryClassifierAgent)}
    (h : (cfgs.map Prod.fst).Nodup) {l : String} {c c2 : RegexBinaryClassifierAgent}
    (h1 : (l, c) ∈ cfgs) (h2 : (l, c2) ∈ cfgs) : c = c2 := by
  induction cfgs with
  | nil => simp at h1
  | cons p rest ih =>
    obtain ⟨label, c0⟩ := p
    simp only [List.map_cons, List.nodup_cons] at h
    rcases List.mem_cons.1 h1 with h1e | h1m <;> rcases List.mem_cons.1 h2 with h2e | h2m
    · rw [Prod.mk.injEq] at h1e h2e
      exact h1e.2.trans h2e.2.symm
    · exfalso
      rw [Prod.mk.injEq] at h1e
      exact h.1 (h1e.1 ▸ List.mem_map_of_mem Prod.fst h2m)
    · exfalso
      rw [Prod.mk.injEq] at h2e
      exact h.1 (h2e.1 ▸ List.mem_map_of_mem Prod.fst h1m)
    · exact ih h.2 h1m h2m

/-- Claim C4: with distinct labels (the keys of a Python dict are
distinct), a label is in the multi-label result iff its binary classifier
returns true on the text; the result has no duplicates; and the result
lists labels in construction order, being a sublist of the configured
label sequence. -/
theorem multilabel_labels_spec (cfgs : List (String × RegexBinaryClassifierAgent))
    (eng : ReEngine) (h : (cfgs.map Prod.fst).Nodup) :
    (∀ l c, (l, c) ∈ cfgs →
      (l ∈ RegexMultiLabelClassifierAgent.call cfgs eng ↔ c.call eng = true))
    ∧ (RegexMultiLabelClassifierAgent.call cfgs eng).Nodup
    ∧ List.Sublist (RegexMultiLabelClassifierAgent.call cfgs eng) (cfgs.map Prod.fst) := by
  refine ⟨fun l c hmem => ?_, ?_, RegexMultiLabelClassifierAgent.call_sublist cfgs eng⟩
  · constructor
    · intro hl
      obtain ⟨c2, hmem2, hcall⟩ := (RegexMultiLabelClassifierAgent.mem_call cfgs eng l).1 hl
      rwa [pair_mem_nodup_keys h hmem hmem2]
    · intro hcall
      exact (RegexMultiLabelClassifierAgent.mem_call cfgs eng l).2 ⟨c, hmem, hcall⟩
  · exact (RegexMultiLabelClassifierAgent.call_sublist cfgs eng).nodup h

/-- Engine of a text with no matches at all: finditer finds nothing for
any pattern. -/
def noMatchEngine : ReEngine where
  textLen := 0
  finditer := fun _ => []
  search := fun _ _ _ => false

/-- Concrete instance of multilabel_labels_spec: a one-label configuration
on a text with no matches yields a duplicate-free result. -/
theorem multilabel_labels_spec_witness :
    (RegexMultiLabelClassifierAgent.call [("a", ⟨"p", "", none, .any⟩)] noMatchEngine).Nodup :=
  (multilabel_labels_spec [("a", ⟨"p", "", none, .any⟩)] noMatchEngine
    (by decide)).2.1

/-- Embedding of the scanning loop of RegexMultiClassClassifierAgent
.__call__ over classes_priorities: return the first class contained in the
multi-label result, None when the loop exhausts. -/
def RegexMultiClassClassifierAgent.findFirstIn (classes_priorities multi_label_res : List String) :
    Option String :=
  match classes_priorities with
  | [] => none
  | class0 :: rest =>
    if multi_label_res.contains class0 then some class0
    else RegexMultiClassClassifierAgent.findFirstIn rest multi_label_res

/-- Embedding of RegexMultiClassClassifierAgent.__call__ with a concrete
classes_priorities list: delegate to the multi-label classifier, then scan
the priorities. -/
def RegexMultiClassClassifierAgent.call (classes_priorities : List String)
    (cfgs : List (String × RegexBinaryClassifierAgent)) (eng : ReEngine) : Option String :=
  RegexMultiClassClassifierAgent.findFirstIn classes_priorities
    (RegexMultiLabelClassifierAgent.call cfgs eng)

lemma RegexMultiClassClassifierAgent.findFirstIn_spec (prios res : List String) :
    (RegexMultiClassClassifierAgent.findFirstIn prios res = none ↔ ∀ l ∈ prios, l ∉ res)
    ∧ (∀ l, RegexMultiClassClassifierAgent.findFirstIn prios res = some l →
        l ∈ res ∧ ∃ pre suf, prios = pre ++ l :: suf ∧ ∀ x ∈ pre, x ∉ res) := by
  induction prios with
  | nil => simp [RegexMultiClassClassifierAgent.findFirstIn]
  | cons p rest ih =>
    by_cases hp : res.contains p = true
    · simp only [RegexMultiClassClassifierAgent.findFirstIn, if_pos hp]
      refine ⟨by simp [List.elem_iff.1 hp], fun l hl => ?_⟩
      rw [Option.some.injEq] at hl
      subst hl
      exact ⟨List.elem_iff.1 hp, [], rest, rfl, by simp⟩
    · have hpm : p ∉ res := fun hm => hp (List.elem_iff.2 hm)
      simp only [RegexMultiClassClassifierAgent.findFirstIn, if_neg hp]
      refine ⟨?_, fun l hl => ?_⟩
      · rw [ih.1]
        constructor
        · intro hall
          intro l hmem
          rcases List.mem_cons.1 hmem with rfl | hmem2
          · exact hpm
          · exact hall l hmem2
        · intro hall l hmem
          exact hall l (List.mem_cons_of_mem p hmem)
      · obtain ⟨hres, pre, suf, heq, hpre⟩ := ih.2 l hl
        refine ⟨hres, p :: pre, suf, by rw [heq, List.cons_append], ?_⟩
        intro x hx
        rcases List.mem_cons.1 hx with rfl | hx2
        · exact hpm
        · exact hpre x hx2

/-- Claim C5: for every engine behavior and every concrete priority list,
the multi-class classifier returns the first label of the priority list
present in the multi-label result, and returns None as a normal value
(the function is total into Option) when no priority-list label is
present. -/
theorem multiclass_resolution_spec (classes_priorities : List String)
    (cfgs : List (String × RegexBinaryClassifierAgent)) (eng : ReEngine) :
    (RegexMultiClassClassifierAgent.call classes_priorities cfgs eng = none
      ↔ ∀ l ∈ classes_priorities, l ∉ RegexMultiLabelClassifierAgent.call cfgs eng)
    ∧ (∀ l, RegexMultiClassClassifierAgent.call classes_priorities cfgs eng = some l →
        l ∈ RegexMultiLabelClassifierAgent.call cfgs eng
        ∧ ∃ pre suf, classes_priorities = pre ++ l :: suf
            ∧ ∀ x ∈ pre, x ∉ RegexMultiLabelClassifierAgent.call cfgs eng) :=
  RegexMultiClassClassifierAgent.findFirstIn_spec classes_priorities
    (RegexMultiLabelClassifierAgent.call cfgs eng)

/-- Concrete instance of multiclass_resolution_spec: with an empty
configuration no priority label is matched and the resolver returns None
as a value. -/
theorem multiclass_resolution_spec_witness :
    RegexMultiClassClassifierAgent.call ["a"] [] noMatchEngine = none :=
  (multiclass_resolution_spec ["a"] [] noMatchEngine).1.mpr
    (by simp [RegexMultiLabelClassifierAgent.call])

/-- Value of the inputs argument of MultiInputsAgentExecuter.__call__: a
mapping with keys of type kappa, a sequence, or one of the invalid kinds
the claims mention (a string or an integer). -/
inductive FanInputs (kappa alpha : Type) where
  | dict (entries : List (kappa × alpha))
  | list (items : List alpha)
  | str (s : String)
  | int (n : Int)

/-- Key of the results dictionary built by MultiInputsAgentExecuter: a key
of the original mapping, or an integer index synthesized by enumerate for
a sequence input. -/
inductive FanKey (kappa : Type) where
  | orig (k : kappa)
  | idx (i : Nat)
deriving DecidableEq

/-- Value returned by MultiInputsAgentExecuter.__call__: the results
dictionary, or a list (the shape the dead reconstruction branch of the
code would produce). -/
inductive FanResult (kappa beta : Type) where
  | dict (entries : List (FanKey kappa × beta))
  | list (items : List beta)

/-- Embedding of MultiInputsAgentExecuter.__call__.  The agent argument is
the per-call invocation agent(**value), abstracted as a function on the
per-key argument sets.  The thread pool is modelled sequentially: the
content of the results dictionary as a key-to-value mapping does not
depend on completion order, and the theorems about it are stated
order-insensitively where order could differ.  Note that for a list input
the code first reassigns inputs to the dictionary built by enumerate, so
the final isinstance(inputs, list) test is False and the results
dictionary is returned without being converted back to a list. -/
def MultiInputsAgentExecuter.call {kappa alpha beta : Type} (agent : alpha → beta) :
    FanInputs kappa alpha → Except AgentError (FanResult kappa beta)
  | .dict entries => .ok (.dict (entries.map fun kv => (FanKey.orig kv.1, agent kv.2)))
  | .list items => .ok (.dict (items.enum.map fun iv => (FanKey.idx iv.1, agent iv.2)))
  | .str _ => .error .invalidInputType
  | .int _ => .error .invalidInputType

/-- Claim C1 fails on the code: with a sequence input of 5 argument sets
and an agent returning its argument (here the i-th argument set is the
index i, so the agent returns its index), the executor returns the
results dictionary keyed by the synthesized integers 0..4, not the
sequence the claim describes: inputs is reassigned to a dictionary before
the final isinstance(inputs, list) test, so the list-reconstruction
branch never runs. -/
theorem multiInputs_list_input_returns_dict :
    MultiInputsAgentExecuter.call (fun n : Nat => n)
      (FanInputs.list [0, 1, 2, 3, 4] : FanInputs String Nat)
      = .ok (.dict [(.idx 0, 0), (.idx 1, 1), (.idx 2, 2), (.idx 3, 3), (.idx 4, 4)]) := rfl

/-- Claim C7: for an inputs value that is neither a mapping nor a list (a
string or an integer), the executor raises InvalidInputType, and the
outcome does not depend on the agent at all: no agent invocation occurs
and no partial work is done. -/
theorem multiInputs_invalid_input_type {kappa alpha beta : Type} (agent : alpha → beta)
    (s : String) (n : Int) :
    MultiInputsAgentExecuter.call agent (FanInputs.str s : FanInputs kappa alpha)
      = .error .invalidInputType
    ∧ MultiInputsAgentExecuter.call agent (FanInputs.int n : FanInputs kappa alpha)
      = .error .invalidInputType
    ∧ ∀ agent2 : alpha → beta,
        MultiInputsAgentExecuter.call agent (FanInputs.str s : FanInputs kappa alpha)
          = MultiInputsAgentExecuter.call agent2 (FanInputs.str s)
        ∧ MultiInputsAgentExecuter.call agent (FanInputs.int n : FanInputs kappa alpha)
          = MultiInputsAgentExecuter.call agent2 (FanInputs.int n) :=
  ⟨rfl, rfl, fun _ => ⟨rfl, rfl⟩⟩

/-- State-passing form of RegexBinaryClassifierAgent.__call__: a method
call on the object returns the result together with the object after the
call.  The body of __call__ reads attributes and local variables only and
assigns no attribute, so the object after the call is the object before
it. -/
def RegexBinaryClassifierAgent.callM (a : RegexBinaryClassifierAgent) (eng : ReEngine) :
    Bool × RegexBinaryClassifierAgent :=
  (a.call eng, a)

/-- State-passing form of RegexMultiLabelClassifierAgent.__call__: the
body only reads the per-label mapping and appends to a local list, so the
mapping after the call is the mapping before it. -/
def RegexMultiLabelClassifierAgent.callM
    (cfgs : List (String × RegexBinaryClassifierAgent)) (eng : ReEngine) :
    List String × List (String × RegexBinaryClassifierAgent) :=
  (RegexMultiLabelClassifierAgent.call cfgs eng, cfgs)

/-- State-passing form of RegexMultiClassClassifierAgent.__call__: the
body only reads classes_priorities and the delegate classifier, so both
are unchanged by the call. -/
def RegexMultiClassClassifierAgent.callM (classes_priorities : List String)
    (cfgs : List (String × RegexBinaryClassifierAgent)) (eng : ReEngine) :
    Option String × (List String × List (String × RegexBinaryClassifierAgent)) :=
  (RegexMultiClassClassifierAgent.call classes_priorities cfgs eng, (classes_priorities, cfgs))

/-- Claim C8: every stage of the cascade is stateless: a call leaves the
object exactly as constructed, and a second call on the post-call object
with the same text returns the same result as the first. -/
theorem cascade_stateless (a : RegexBinaryClassifierAgent)
    (cfgs : List (String × RegexBinaryClassifierAgent))
    (classes_priorities : List String) (eng : ReEngine) :
    ((a.callM eng).2 = a ∧ ((a.callM eng).2.callM eng).1 = (a.callM eng).1)
    ∧ ((RegexMultiLabelClassifierAgent.callM cfgs eng).2 = cfgs
      ∧ (RegexMultiLabelClassifierAgent.callM
          (RegexMultiLabelClassifierAgent.callM cfgs eng).2 eng).1
        = (RegexMultiLabelClassifierAgent.callM cfgs eng).1)
    ∧ ((RegexMultiClassClassifierAgent.callM classes_priorities cfgs eng).2
        = (classes_priorities, cfgs)
      ∧ (RegexMultiClassClassifierAgent.callM
          (RegexMultiClassClassifierAgent.callM classes_priorities cfgs eng).2.1
          (RegexMultiClassClassifierAgent.callM classes_priorities cfgs eng).2.2 eng).1
        = (RegexMultiClassClassifierAgent.callM classes_priorities cfgs eng).1) :=
  ⟨⟨rfl, rfl⟩, ⟨rfl, rfl⟩, ⟨rfl, rfl⟩⟩
